import Mathlib

/-!
# Campaign dialog controller

A shallow embedding of `campaign-dialog.controller.js` (the AngularJS controller
`CampaignDialogController` of the kiosk application) and the properties of its
validity check, its save and cancel operations, the two save continuations and the
date-picker flag map.

The controller is stateful JavaScript.  Its view-model `vm` becomes the record `VM`;
every call it makes on an injected collaborator (`Campaign`, `User`, `Promotion`,
`$uibModalInstance`, `$scope`, `$timeout`) becomes an `Effect`, and each operation is
a function from the view-model to the new view-model and the effects it performed, in
order.
-/

namespace CampaignDialog

/-! ## JavaScript values -/

/-- JavaScript values as they occur in the fields of a campaign record.  An object
(a promotion entity, a `Date`, an array) is a reference together with the string that
its conversion to a primitive yields, which is all that `==` against a string looks
at. -/
inductive JSVal where
  | undefined
  | null
  | bool (b : Bool)
  | num (n : Int)
  | str (s : String)
  | obj (ref : Nat) (toPrim : String)
  deriving DecidableEq, Repr

/-- The JavaScript test `v != null`: false exactly for `null` and `undefined`. -/
def looseNeNull : JSVal → Bool
  | .null => false
  | .undefined => false
  | _ => true

/-- The JavaScript test `v !== null`: false exactly for `null`; `undefined` is
strictly different from `null`. -/
def strictNeNull : JSVal → Bool
  | .null => false
  | _ => true

/-- The JavaScript test `v == lit` for a string literal `lit` that is not the text of
a number (as are `PROMOTION` and `CUSTOM`).  A string is compared as is; an object is
first converted to its primitive; `null`, `undefined`, booleans and numbers are never
equal to such a literal (the literal converts to `NaN`). -/
def looseEqLit : JSVal → String → Bool
  | .str s, lit => s == lit
  | .obj _ p, lit => p == lit
  | _, _ => false

/-! ## Objects as property lists -/

/-- A plain JavaScript object: its own properties in insertion order, each key at
most once when built through `setProp`.  What the object inherits from
`Object.prototype` is described by `inheritedProp`. -/
abbrev JSObj := List (String × JSVal)

/-- Property read `o.k` for a name `k` that no prototype defines, as are the field
names `id`, `type`, `date`, `promotion`, `cardType` and `customText` read by the
controller: the value of the own property, `undefined` when absent. -/
def getProp (o : JSObj) (k : String) : JSVal :=
  match o.lookup k with
  | some v => v
  | none => JSVal.undefined

/-- Property write `o[k] = v`: an existing own property keeps its position and takes
the new value, a new key is added at the end. -/
def setProp : JSObj → String → JSVal → JSObj
  | [], k, v => [(k, v)]
  | (k', v') :: rest, k, v =>
    if k' = k then (k', v) :: rest else (k', v') :: setProp rest k v

/-- The names of the methods that every plain object inherits from
`Object.prototype`. -/
def objectPrototypeMethods : List String :=
  ["constructor", "hasOwnProperty", "isPrototypeOf", "propertyIsEnumerable",
   "toLocaleString", "toString", "valueOf", "__defineGetter__", "__defineSetter__",
   "__lookupGetter__", "__lookupSetter__"]

/-- What reading `k` on an object literal gives when the object has no own property
`k`: the getter of the accessor `__proto__` returns `Object.prototype` itself (object
0), an inherited method is a function object, and any other name is `undefined`. -/
def inheritedProp (k : String) : JSVal :=
  if k = "__proto__" then JSVal.obj 0 "[object Object]"
  else if k ∈ objectPrototypeMethods then
    JSVal.obj (objectPrototypeMethods.indexOf k + 1) "function"
  else JSVal.undefined

/-- Property read `o[k]` with a computed key on an object literal: the own property
when there is one, else what `Object.prototype` provides. -/
def readProp (o : JSObj) (k : String) : JSVal :=
  match o.lookup k with
  | some v => v
  | none => inheritedProp k

/-- Property write `o[k] = b` of a boolean with a computed key on an object literal.
An own property is overwritten.  Without one the prototype is consulted: for
`__proto__` it holds an accessor whose setter ignores a value that is neither an
object nor `null`, so nothing is written; every other inherited member is a writable
data property, and the write creates an own property as for a fresh name. -/
def writeFlag (o : JSObj) (k : String) (b : Bool) : JSObj :=
  if k = "__proto__" ∧ o.lookup k = none then o
  else setProp o k (JSVal.bool b)

/-! ## View-model and effects -/

/-- A call made by the controller on one of its injected collaborators. -/
inductive Effect where
  /-- The call `User.query()`. -/
  | userQuery
  /-- The call `Promotion.query()`. -/
  | promotionQuery
  /-- The call `$timeout(fn)`, whose callback focuses the second form input. -/
  | timeoutFocus
  /-- The call `Campaign.update(record, onSaveSuccess, onSaveError)`. -/
  | campaignUpdate (record : JSObj)
  /-- The call `Campaign.save(record, onSaveSuccess, onSaveError)`. -/
  | campaignSave (record : JSObj)
  /-- The call `$scope.$emit(name, result)`. -/
  | scopeEmit (name : String) (result : JSVal)
  /-- The call `$uibModalInstance.close(result)`. -/
  | modalClose (result : JSVal)
  /-- The call `$uibModalInstance.dismiss(reason)`. -/
  | modalDismiss (reason : JSVal)
  deriving DecidableEq, Repr

/-- The view-model `vm` of the controller.  The injected `entity` is an object, so
`campaign` is a property list.  `isSaving` is a JavaScript value because the
controller never initialises it: it is `undefined` until the first `save`. -/
structure VM where
  campaign : JSObj
  users : JSVal
  promotions : JSVal
  isSaving : JSVal
  datePickerOpenStatus : JSObj
  deriving DecidableEq, Repr

/-- The body of the constructor `CampaignDialogController`, given the injected
`entity` and the values the two `query()` calls return. -/
def CampaignDialogController (entity : JSObj) (users promotions : JSVal) :
    VM × List Effect :=
  ({ campaign := entity
     users := users
     promotions := promotions
     isSaving := JSVal.undefined
     datePickerOpenStatus := setProp [] "date" (JSVal.bool false) },
   [Effect.userQuery, Effect.promotionQuery, Effect.timeoutFocus])

/-- The continuation `onSaveSuccess(result)`. -/
def onSaveSuccess (result : JSVal) (vm : VM) : VM × List Effect :=
  ({ vm with isSaving := JSVal.bool false },
   [Effect.scopeEmit "kioskApp:campaignUpdate" result, Effect.modalClose result])

/-- The continuation `onSaveError()`. -/
def onSaveError (vm : VM) : VM × List Effect :=
  ({ vm with isSaving := JSVal.bool false }, [])

/-- The operation `vm.save()`. -/
def save (vm : VM) : VM × List Effect :=
  let vm1 := { vm with isSaving := JSVal.bool true }
  if strictNeNull (getProp vm1.campaign "id") then
    (vm1, [Effect.campaignUpdate vm1.campaign])
  else
    (vm1, [Effect.campaignSave vm1.campaign])

/-- The operation `vm.clear()`. -/
def clear (vm : VM) : VM × List Effect :=
  (vm, [Effect.modalDismiss (JSVal.str "cancel")])

/-- The operation `vm.openCalendar(date)`: the single assignment
`vm.datePickerOpenStatus[date] = true`. -/
def openCalendar (date : String) (vm : VM) : VM × List Effect :=
  ({ vm with datePickerOpenStatus := writeFlag vm.datePickerOpenStatus date true }, [])

/-- The function `isFormValid()`, which reads `vm.campaign` and has no effect.  When
neither test on `type` succeeds the JavaScript function ends without a `return`, so
its value is `undefined`. -/
def isFormValid (vm : VM) : JSVal :=
  if looseEqLit (getProp vm.campaign "type") "PROMOTION" then
    JSVal.bool (looseNeNull (getProp vm.campaign "date")
      && looseNeNull (getProp vm.campaign "promotion"))
  else if looseEqLit (getProp vm.campaign "type") "CUSTOM" then
    JSVal.bool (looseNeNull (getProp vm.campaign "date")
      && looseNeNull (getProp vm.campaign "cardType")
      && looseNeNull (getProp vm.campaign "customText"))
  else
    JSVal.undefined

/-- The member `vm.isValid`, bound to `isFormValid` by the constructor. -/
def isValid (vm : VM) : JSVal := isFormValid vm

/-! ## Sequences of operations -/

/-- What can happen to an open dialog: the view calls an operation, or the backend
calls one of the continuations registered by `save`. -/
inductive Event where
  | save
  | clear
  | openCalendar (date : String)
  | saveSuccess (result : JSVal)
  | saveError
  deriving DecidableEq, Repr

/-- One event applied to the view-model. -/
def step (vm : VM) : Event → VM × List Effect
  | .save => save vm
  | .clear => clear vm
  | .openCalendar date => openCalendar date vm
  | .saveSuccess result => onSaveSuccess result vm
  | .saveError => onSaveError vm

/-- A sequence of events applied in order; the effects are concatenated in order. -/
def run (vm : VM) : List Event → VM × List Effect
  | [] => (vm, [])
  | e :: es =>
    let r1 := step vm e
    let r2 := run r1.1 es
    (r2.1, r1.2 ++ r2.2)

/-! ## Observations on effect traces -/

/-- Number of create requests (`Campaign.save`) in a trace. -/
def createCount (t : List Effect) : Nat :=
  t.countP fun e => match e with
    | .campaignSave _ => true
    | _ => false

/-- Number of update requests (`Campaign.update`) in a trace. -/
def updateCount (t : List Effect) : Nat :=
  t.countP fun e => match e with
    | .campaignUpdate _ => true
    | _ => false

/-- Number of `$scope.$emit` calls in a trace. -/
def emitCount (t : List Effect) : Nat :=
  t.countP fun e => match e with
    | .scopeEmit _ _ => true
    | _ => false

/-- Number of `$uibModalInstance.close` calls in a trace. -/
def closeCount (t : List Effect) : Nat :=
  t.countP fun e => match e with
    | .modalClose _ => true
    | _ => false

/-- Number of `$uibModalInstance.dismiss` calls in a trace. -/
def dismissCount (t : List Effect) : Nat :=
  t.countP fun e => match e with
    | .modalDismiss _ => true
    | _ => false

/-- A field of a record is set when reading it gives neither `null` nor `undefined`;
an absent field reads as `undefined`, so it is not set. -/
def FieldSet (o : JSObj) (k : String) : Prop :=
  getProp o k ≠ JSVal.null ∧ getProp o k ≠ JSVal.undefined

instance (o : JSObj) (k : String) : Decidable (FieldSet o k) := by
  unfold FieldSet; infer_instance

/-- The campaign used in the examples: a new promotion campaign, nothing filled in. -/
def blankPromotion : JSObj :=
  [("id", JSVal.null), ("type", JSVal.str "PROMOTION"), ("date", JSVal.null),
   ("promotion", JSVal.null)]

/-- A view-model around a record, as the constructor leaves it. -/
def vmOf (entity : JSObj) : VM :=
  (CampaignDialogController entity JSVal.undefined JSVal.undefined).1

/-- A campaign that carries no `id` property at all. -/
def absentIdCampaign : JSObj :=
  [("type", JSVal.str "PROMOTION"), ("date", JSVal.str "2024-01-01"),
   ("promotion", JSVal.obj 5 "[object Object]")]

/-- A stored custom campaign with every field filled in. -/
def storedCustom : JSObj :=
  [("id", JSVal.num 7), ("type", JSVal.str "CUSTOM"), ("date", JSVal.str "2024-01-01"),
   ("cardType", JSVal.str "GOLD"), ("customText", JSVal.str "welcome")]

/-- A new campaign as the form first shows it: no type chosen yet. -/
def untypedCampaign : JSObj :=
  [("id", JSVal.null), ("type", JSVal.null), ("date", JSVal.null),
   ("promotion", JSVal.null), ("cardType", JSVal.null), ("customText", JSVal.null)]

/-! ## Lemmas on values and property lists -/

theorem looseNeNull_eq_true_iff (v : JSVal) :
    looseNeNull v = true ↔ v ≠ JSVal.null ∧ v ≠ JSVal.undefined := by
  cases v <;> simp [looseNeNull]

theorem strictNeNull_eq_true_iff (v : JSVal) : strictNeNull v = true ↔ v ≠ JSVal.null := by
  cases v <;> simp [strictNeNull]

theorem looseNeNull_getProp_iff (o : JSObj) (k : String) :
    looseNeNull (getProp o k) = true ↔ FieldSet o k := by
  unfold FieldSet
  exact looseNeNull_eq_true_iff _

theorem getProp_of_absent (o : JSObj) (k : String) (h : o.lookup k = none) :
    getProp o k = JSVal.undefined := by
  simp [getProp, h]

theorem not_fieldSet_of_absent (o : JSObj) (k : String) (h : o.lookup k = none) :
    ¬ FieldSet o k := by
  intro hs
  exact hs.2 (getProp_of_absent o k h)

theorem getProp_setProp_same (o : JSObj) (k : String) (v : JSVal) :
    getProp (setProp o k v) k = v := by
  induction o with
  | nil => simp [setProp, getProp, List.lookup]
  | cons p rest ih =>
    obtain ⟨k', v'⟩ := p
    by_cases hk : k' = k
    · subst hk
      simp [setProp, getProp, List.lookup]
    · have hne : (k == k') = false := by
        simp only [beq_eq_false_iff_ne, ne_eq]
        exact fun h => hk h.symm
      simp only [setProp, if_neg hk]
      simpa [getProp, List.lookup, hne] using ih

theorem getProp_setProp_other (o : JSObj) (k j : String) (v : JSVal) (hj : j ≠ k) :
    getProp (setProp o k v) j = getProp o j := by
  induction o with
  | nil =>
    have hne : (j == k) = false := by simpa using hj
    simp [setProp, getProp, List.lookup, hne]
  | cons p rest ih =>
    obtain ⟨k', v'⟩ := p
    by_cases hk : k' = k
    · subst hk
      have hne : (j == k') = false := by simpa using hj
      simp [setProp, getProp, List.lookup, hne]
    · simp only [setProp, if_neg hk]
      by_cases hjk : j = k'
      · subst hjk
        simp [getProp, List.lookup]
      · have hne : (j == k') = false := by simpa using hjk
        simpa [getProp, List.lookup, hne] using ih

theorem setProp_idem (o : JSObj) (k : String) (v : JSVal) :
    setProp (setProp o k v) k v = setProp o k v := by
  induction o with
  | nil => simp [setProp]
  | cons p rest ih =>
    obtain ⟨k', v'⟩ := p
    by_cases hk : k' = k
    · simp [setProp, hk]
    · simp [setProp, hk, ih]

theorem lookup_setProp_same (o : JSObj) (k : String) (v : JSVal) :
    (setProp o k v).lookup k = some v := by
  induction o with
  | nil => simp [setProp, List.lookup]
  | cons p rest ih =>
    obtain ⟨k', v'⟩ := p
    by_cases hk : k' = k
    · subst hk
      simp [setProp, List.lookup]
    · have hne : (k == k') = false := by
        simp only [beq_eq_false_iff_ne, ne_eq]
        exact fun h => hk h.symm
      simp only [setProp, if_neg hk]
      simpa [List.lookup, hne] using ih

theorem lookup_setProp_other (o : JSObj) (k j : String) (v : JSVal) (hj : j ≠ k) :
    (setProp o k v).lookup j = o.lookup j := by
  induction o with
  | nil =>
    have hne : (j == k) = false := by simpa using hj
    simp [setProp, List.lookup, hne]
  | cons p rest ih =>
    obtain ⟨k', v'⟩ := p
    by_cases hk : k' = k
    · subst hk
      have hne : (j == k') = false := by simpa using hj
      simp [setProp, List.lookup, hne]
    · simp only [setProp, if_neg hk]
      by_cases hjk : j = k'
      · subst hjk
        simp [List.lookup]
      · have hne : (j == k') = false := by simpa using hjk
        simpa [List.lookup, hne] using ih

theorem readProp_writeFlag_same (o : JSObj) (k : String) (b : Bool)
    (hk : k ≠ "__proto__") : readProp (writeFlag o k b) k = JSVal.bool b := by
  simp [writeFlag, hk, readProp, lookup_setProp_same]

theorem readProp_writeFlag_other (o : JSObj) (k j : String) (b : Bool) (hj : j ≠ k) :
    readProp (writeFlag o k b) j = readProp o j := by
  unfold writeFlag
  split
  · rfl
  · simp [readProp, lookup_setProp_other o k j _ hj]

theorem writeFlag_idem (o : JSObj) (k : String) (b : Bool) :
    writeFlag (writeFlag o k b) k b = writeFlag o k b := by
  by_cases hc : k = "__proto__" ∧ o.lookup k = none
  · have h0 : writeFlag o k b = o := by
      simp only [writeFlag, if_pos hc]
    rw [h0, h0]
  · have h1 : writeFlag o k b = setProp o k (JSVal.bool b) := by
      simp only [writeFlag, if_neg hc]
    have h2 : ¬ (k = "__proto__" ∧ (setProp o k (JSVal.bool b)).lookup k = none) := by
      simp [lookup_setProp_same]
    rw [h1]
    simp only [writeFlag, if_neg h2]
    exact setProp_idem o k _

theorem save_fst (vm : VM) : (save vm).1 = { vm with isSaving := JSVal.bool true } := by
  simp only [save]
  split <;> rfl

theorem save_snd_of_ne_null (vm : VM) (h : getProp vm.campaign "id" ≠ JSVal.null) :
    (save vm).2 = [Effect.campaignUpdate vm.campaign] := by
  have hs : strictNeNull (getProp vm.campaign "id") = true :=
    (strictNeNull_eq_true_iff _).2 h
  simp [save, hs]

theorem save_snd_of_null (vm : VM) (h : getProp vm.campaign "id" = JSVal.null) :
    (save vm).2 = [Effect.campaignSave vm.campaign] := by
  simp [save, h, strictNeNull]

theorem isFormValid_of_promotion (vm : VM)
    (h : getProp vm.campaign "type" = JSVal.str "PROMOTION") :
    isFormValid vm = JSVal.bool (looseNeNull (getProp vm.campaign "date")
      && looseNeNull (getProp vm.campaign "promotion")) := by
  simp [isFormValid, h, looseEqLit]

theorem isFormValid_of_custom (vm : VM)
    (h : getProp vm.campaign "type" = JSVal.str "CUSTOM") :
    isFormValid vm = JSVal.bool (looseNeNull (getProp vm.campaign "date")
      && looseNeNull (getProp vm.campaign "cardType")
      && looseNeNull (getProp vm.campaign "customText")) := by
  simp [isFormValid, h, looseEqLit]

/-! ## The validity check -/

/-- C1: for a campaign whose type is PROMOTION, `isFormValid` (also reached as
`vm.isValid`) returns true exactly when date and promotion are both set, returns false
when either is not set, and gives the same result on any other view-model that agrees
on type, date and promotion, whatever its id, cardType and customText. -/
theorem isFormValid_promotion_iff (vm : VM)
    (h : getProp vm.campaign "type" = JSVal.str "PROMOTION") :
    (isFormValid vm = JSVal.bool true ↔
        FieldSet vm.campaign "date" ∧ FieldSet vm.campaign "promotion")
    ∧ (¬ (FieldSet vm.campaign "date" ∧ FieldSet vm.campaign "promotion") →
        isFormValid vm = JSVal.bool false)
    ∧ isValid vm = isFormValid vm
    ∧ ∀ vm2 : VM,
        getProp vm2.campaign "type" = getProp vm.campaign "type" →
        getProp vm2.campaign "date" = getProp vm.campaign "date" →
        getProp vm2.campaign "promotion" = getProp vm.campaign "promotion" →
        isFormValid vm2 = isFormValid vm := by
  have hv := isFormValid_of_promotion vm h
  have hd := looseNeNull_getProp_iff vm.campaign "date"
  have hp := looseNeNull_getProp_iff vm.campaign "promotion"
  refine ⟨?_, ?_, rfl, ?_⟩
  · rw [hv, ← hd, ← hp]
    simp
  · intro hn
    rw [hv, ← hd, ← hp] at *
    cases hx : looseNeNull (getProp vm.campaign "date") <;>
      cases hy : looseNeNull (getProp vm.campaign "promotion") <;> simp_all
  · intro vm2 ht hdt hpr
    rw [isFormValid_of_promotion vm2 (ht.trans h), hv, hdt, hpr]

/-- C1, at a concrete record: a promotion campaign with date and promotion filled in
is valid. -/
theorem isFormValid_promotion_iff_witness :
    getProp (vmOf absentIdCampaign).campaign "type" = JSVal.str "PROMOTION"
    ∧ isFormValid (vmOf absentIdCampaign) = JSVal.bool true :=
  ⟨by decide,
   (isFormValid_promotion_iff (vmOf absentIdCampaign) (by decide)).1.2
     ⟨by decide, by decide⟩⟩

/-- C2: for a campaign whose type is CUSTOM, `isFormValid` returns true exactly when
date, cardType and customText are all set, returns false otherwise, and gives the same
result on any other view-model that agrees on type, date, cardType and customText,
whatever its promotion and id. -/
theorem isFormValid_custom_iff (vm : VM)
    (h : getProp vm.campaign "type" = JSVal.str "CUSTOM") :
    (isFormValid vm = JSVal.bool true ↔
        FieldSet vm.campaign "date" ∧ FieldSet vm.campaign "cardType"
          ∧ FieldSet vm.campaign "customText")
    ∧ (¬ (FieldSet vm.campaign "date" ∧ FieldSet vm.campaign "cardType"
          ∧ FieldSet vm.campaign "customText") →
        isFormValid vm = JSVal.bool false)
    ∧ ∀ vm2 : VM,
        getProp vm2.campaign "type" = getProp vm.campaign "type" →
        getProp vm2.campaign "date" = getProp vm.campaign "date" →
        getProp vm2.campaign "cardType" = getProp vm.campaign "cardType" →
        getProp vm2.campaign "customText" = getProp vm.campaign "customText" →
        isFormValid vm2 = isFormValid vm := by
  have hv := isFormValid_of_custom vm h
  have hd := looseNeNull_getProp_iff vm.campaign "date"
  have hc := looseNeNull_getProp_iff vm.campaign "cardType"
  have hx := looseNeNull_getProp_iff vm.campaign "customText"
  refine ⟨?_, ?_, ?_⟩
  · rw [hv, ← hd, ← hc, ← hx]
    simp [and_assoc]
  · intro hn
    rw [hv, ← hd, ← hc, ← hx] at *
    cases h1 : looseNeNull (getProp vm.campaign "date") <;>
      cases h2 : looseNeNull (getProp vm.campaign "cardType") <;>
      cases h3 : looseNeNull (getProp vm.campaign "customText") <;> simp_all
  · intro vm2 ht hdt hct hcx
    rw [isFormValid_of_custom vm2 (ht.trans h), hv, hdt, hct, hcx]

/-- C2, at a concrete record: a custom campaign with date, cardType and customText
filled in is valid. -/
theorem isFormValid_custom_iff_witness :
    getProp (vmOf storedCustom).campaign "type" = JSVal.str "CUSTOM"
    ∧ isFormValid (vmOf storedCustom) = JSVal.bool true :=
  ⟨by decide,
   (isFormValid_custom_iff (vmOf storedCustom) (by decide)).1.2
     ⟨by decide, by decide, by decide⟩⟩

/-! ## Save: which request is issued -/

/-- C3, as stated, fails: on a record with no `id` property the test
`vm.campaign.id !== null` compares `undefined` with `null`, which are strictly
different, so `save()` issues one update request and no create request. -/
theorem save_absent_id_issues_update :
    absentIdCampaign.lookup "id" = none
    ∧ (save (vmOf absentIdCampaign)).2 = [Effect.campaignUpdate absentIdCampaign]
    ∧ updateCount (save (vmOf absentIdCampaign)).2 = 1
    ∧ createCount (save (vmOf absentIdCampaign)).2 = 0 := by
  decide

/-- C3, amended: for a campaign whose `id` is `null`, `save()` issues exactly one
create request (`Campaign.save`) carrying the record and no update request. -/
theorem save_null_id_creates (vm : VM) (h : getProp vm.campaign "id" = JSVal.null) :
    (save vm).2 = [Effect.campaignSave vm.campaign]
    ∧ createCount (save vm).2 = 1
    ∧ updateCount (save vm).2 = 0 := by
  rw [save_snd_of_null vm h]
  exact ⟨rfl, rfl, rfl⟩

/-- C3, amended, at a concrete record: saving a blank new promotion campaign, whose
`id` is `null`, issues one create request. -/
theorem save_null_id_creates_witness :
    getProp (vmOf blankPromotion).campaign "id" = JSVal.null
    ∧ (save (vmOf blankPromotion)).2 = [Effect.campaignSave blankPromotion] :=
  ⟨by decide, (save_null_id_creates (vmOf blankPromotion) (by decide)).1⟩

/-- C4: for a campaign whose `id` is not `null`, `save()` issues exactly one update
request (`Campaign.update`) carrying the whole record and no create request. -/
theorem save_nonnull_id_updates (vm : VM) (h : getProp vm.campaign "id" ≠ JSVal.null) :
    (save vm).2 = [Effect.campaignUpdate vm.campaign]
    ∧ updateCount (save vm).2 = 1
    ∧ createCount (save vm).2 = 0 := by
  rw [save_snd_of_ne_null vm h]
  exact ⟨rfl, rfl, rfl⟩

/-- C4, at a concrete record: saving a stored campaign with `id` 7 issues one update
request carrying it. -/
theorem save_nonnull_id_updates_witness :
    getProp (vmOf storedCustom).campaign "id" ≠ JSVal.null
    ∧ (save (vmOf storedCustom)).2 = [Effect.campaignUpdate storedCustom] :=
  ⟨by decide, (save_nonnull_id_updates (vmOf storedCustom) (by decide)).1⟩

/-! ## Save and its continuations -/

/-- C5: when `save()` is followed by the success continuation with result `r`, the
event `kioskApp:campaignUpdate` is emitted exactly once and carries `r`, the dialog is
closed exactly once and with `r`, it is never dismissed, and `isSaving` is false
afterwards; the continuation alone, in whatever state it is called, performs exactly
the emit and then the close. -/
theorem save_then_success (vm : VM) (r : JSVal) :
    (onSaveSuccess r vm).2
        = [Effect.scopeEmit "kioskApp:campaignUpdate" r, Effect.modalClose r]
    ∧ (run vm [Event.save, Event.saveSuccess r]).2
        = (save vm).2 ++ [Effect.scopeEmit "kioskApp:campaignUpdate" r, Effect.modalClose r]
    ∧ emitCount (run vm [Event.save, Event.saveSuccess r]).2 = 1
    ∧ (∀ n x, Effect.scopeEmit n x ∈ (run vm [Event.save, Event.saveSuccess r]).2 →
        n = "kioskApp:campaignUpdate" ∧ x = r)
    ∧ closeCount (run vm [Event.save, Event.saveSuccess r]).2 = 1
    ∧ (∀ x, Effect.modalClose x ∈ (run vm [Event.save, Event.saveSuccess r]).2 → x = r)
    ∧ dismissCount (run vm [Event.save, Event.saveSuccess r]).2 = 0
    ∧ (run vm [Event.save, Event.saveSuccess r]).1.isSaving = JSVal.bool false := by
  have ht : (run vm [Event.save, Event.saveSuccess r]).2
      = (save vm).2 ++ [Effect.scopeEmit "kioskApp:campaignUpdate" r, Effect.modalClose r] := by
    simp [run, step, onSaveSuccess]
  refine ⟨rfl, ht, ?_, ?_, ?_, ?_, ?_, ?_⟩
  · rw [ht]
    cases hs : strictNeNull (getProp vm.campaign "id") <;>
      simp [save, hs, emitCount, List.countP_cons]
  · intro n x hx
    rw [ht] at hx
    cases hs : strictNeNull (getProp vm.campaign "id") <;>
      simp [save, hs] at hx <;> exact hx
  · rw [ht]
    cases hs : strictNeNull (getProp vm.campaign "id") <;>
      simp [save, hs, closeCount, List.countP_cons]
  · intro x hx
    rw [ht] at hx
    cases hs : strictNeNull (getProp vm.campaign "id") <;>
      simp [save, hs] at hx <;> exact hx
  · rw [ht]
    cases hs : strictNeNull (getProp vm.campaign "id") <;>
      simp [save, hs, dismissCount, List.countP_cons]
  · simp [run, step, onSaveSuccess]

/-- C5, at a concrete record: after saving the blank promotion campaign and a
successful answer carrying object 9, every close in the trace carries object 9. -/
theorem save_then_success_witness :
    Effect.modalClose (JSVal.obj 9 "[object Object]")
        ∈ (run (vmOf blankPromotion)
            [Event.save, Event.saveSuccess (JSVal.obj 9 "[object Object]")]).2
    ∧ closeCount (run (vmOf blankPromotion)
            [Event.save, Event.saveSuccess (JSVal.obj 9 "[object Object]")]).2 = 1 :=
  ⟨by decide,
   (save_then_success (vmOf blankPromotion) (JSVal.obj 9 "[object Object]")).2.2.2.2.1⟩

/-- C6: when `save()` is followed by the failure continuation, the dialog is neither
closed nor dismissed, nothing is emitted, the only request in the trace is the one
`save()` issued, the campaign record and every other member of the view-model are as
before, and `isSaving` is false; the continuation alone, in whatever state it is
called, performs no call and changes `isSaving` only. -/
theorem save_then_error (vm : VM) :
    onSaveError vm = ({ vm with isSaving := JSVal.bool false }, [])
    ∧ (run vm [Event.save, Event.saveError]).2 = (save vm).2
    ∧ closeCount (run vm [Event.save, Event.saveError]).2 = 0
    ∧ dismissCount (run vm [Event.save, Event.saveError]).2 = 0
    ∧ emitCount (run vm [Event.save, Event.saveError]).2 = 0
    ∧ createCount (run vm [Event.save, Event.saveError]).2
        + updateCount (run vm [Event.save, Event.saveError]).2 = 1
    ∧ (run vm [Event.save, Event.saveError]).1 = { vm with isSaving := JSVal.bool false } := by
  have ht : (run vm [Event.save, Event.saveError]).2 = (save vm).2 := by
    simp [run, step, onSaveError]
  refine ⟨rfl, ht, ?_, ?_, ?_, ?_, ?_⟩
  · rw [ht]
    cases hs : strictNeNull (getProp vm.campaign "id") <;> simp [save, hs, closeCount]
  · rw [ht]
    cases hs : strictNeNull (getProp vm.campaign "id") <;> simp [save, hs, dismissCount]
  · rw [ht]
    cases hs : strictNeNull (getProp vm.campaign "id") <;> simp [save, hs, emitCount]
  · rw [ht]
    cases hs : strictNeNull (getProp vm.campaign "id") <;>
      simp [save, hs, createCount, updateCount]
  · simp [run, step, onSaveError, save_fst]

/-- C7: in every state `vm.clear()` dismisses the dialog exactly once, with the reason
`cancel`, issues no create and no update request, does not close the dialog, and
leaves the whole view-model (campaign record, `isSaving`, date-picker flags) as it
was. -/
theorem clear_dismisses_only (vm : VM) :
    (clear vm).2 = [Effect.modalDismiss (JSVal.str "cancel")]
    ∧ dismissCount (clear vm).2 = 1
    ∧ createCount (clear vm).2 = 0
    ∧ updateCount (clear vm).2 = 0
    ∧ closeCount (clear vm).2 = 0
    ∧ (clear vm).1 = vm :=
  ⟨rfl, rfl, rfl, rfl, rfl, rfl⟩

/-- C9: in every state, valid record or not, already saving or not, `vm.save()` leaves
`isSaving` true, issues exactly one request, a create or an update carrying the
current record, neither closes nor dismisses the dialog, and changes no other member
of the view-model. -/
theorem save_in_every_state (vm : VM) :
    (save vm).1.isSaving = JSVal.bool true
    ∧ ((save vm).2 = [Effect.campaignSave vm.campaign]
        ∨ (save vm).2 = [Effect.campaignUpdate vm.campaign])
    ∧ createCount (save vm).2 + updateCount (save vm).2 = 1
    ∧ closeCount (save vm).2 = 0
    ∧ dismissCount (save vm).2 = 0
    ∧ (save vm).1.campaign = vm.campaign
    ∧ (save vm).1.datePickerOpenStatus = vm.datePickerOpenStatus
    ∧ (save vm).1 = { vm with isSaving := JSVal.bool true } := by
  refine ⟨by rw [save_fst], ?_, ?_, ?_, ?_, by rw [save_fst], by rw [save_fst], save_fst vm⟩
  · cases hs : strictNeNull (getProp vm.campaign "id") <;> simp [save, hs]
  · cases hs : strictNeNull (getProp vm.campaign "id") <;>
      simp [save, hs, createCount, updateCount]
  · cases hs : strictNeNull (getProp vm.campaign "id") <;> simp [save, hs, closeCount]
  · cases hs : strictNeNull (getProp vm.campaign "id") <;> simp [save, hs, dismissCount]

/-! ## The date-picker flags -/

/-- C10, as stated, fails at the key `__proto__`: on a fresh dialog
`openCalendar` of that key reaches the inherited setter, which ignores `true`, so the
view-model is as before and reading the flag back gives `Object.prototype`, not
`true`. -/
theorem openCalendar_proto_not_set :
    (openCalendar "__proto__" (vmOf blankPromotion)).1 = vmOf blankPromotion
    ∧ readProp (openCalendar "__proto__" (vmOf blankPromotion)).1.datePickerOpenStatus
        "__proto__" = JSVal.obj 0 "[object Object]"
    ∧ readProp (openCalendar "__proto__" (vmOf blankPromotion)).1.datePickerOpenStatus
        "__proto__" ≠ JSVal.bool true := by
  decide

/-- C10, amended: for every key `k` other than `__proto__` and every state,
`openCalendar(k)` makes the flag for `k` true; for every key `k` whatsoever it leaves
the flag of every other key, the campaign record and `isSaving` as they were, performs
no call, and calling it a second time changes nothing more; after construction the
flag for `date` is false. -/
theorem openCalendar_sets_flag (k : String) (vm : VM) :
    (k ≠ "__proto__" →
        readProp (openCalendar k vm).1.datePickerOpenStatus k = JSVal.bool true)
    ∧ (∀ j : String, j ≠ k →
        readProp (openCalendar k vm).1.datePickerOpenStatus j
          = readProp vm.datePickerOpenStatus j)
    ∧ (openCalendar k vm).1.campaign = vm.campaign
    ∧ (openCalendar k vm).1.isSaving = vm.isSaving
    ∧ (openCalendar k vm).2 = []
    ∧ openCalendar k (openCalendar k vm).1 = openCalendar k vm
    ∧ ∀ (entity : JSObj) (users promotions : JSVal),
        readProp (CampaignDialogController entity users promotions).1.datePickerOpenStatus
          "date" = JSVal.bool false := by
  refine ⟨?_, ?_, rfl, rfl, rfl, ?_, ?_⟩
  · intro hk
    exact readProp_writeFlag_same _ _ _ hk
  · intro j hj
    exact readProp_writeFlag_other _ _ _ _ hj
  · simp [openCalendar, writeFlag_idem]
  · intro entity users promotions
    rfl

/-- C10, amended, at a concrete state: opening the `date` calendar of a fresh dialog
makes the flag for `date` true. -/
theorem openCalendar_sets_flag_witness :
    "date" ≠ "__proto__"
    ∧ readProp (vmOf blankPromotion).datePickerOpenStatus "date" = JSVal.bool false
    ∧ readProp (openCalendar "date" (vmOf blankPromotion)).1.datePickerOpenStatus "date"
        = JSVal.bool true :=
  ⟨by decide, by decide,
   (openCalendar_sets_flag "date" (vmOf blankPromotion)).1 (by decide)⟩

/-! ## The validity check on a record without a type -/

/-- C8: on a new campaign whose type is still `null` neither test of `isFormValid`
succeeds and the function ends without returning: its value is `undefined`, which is
neither `true` nor `false`. -/
theorem isFormValid_untyped_undefined :
    getProp (vmOf untypedCampaign).campaign "type" = JSVal.null
    ∧ isFormValid (vmOf untypedCampaign) = JSVal.undefined
    ∧ isFormValid (vmOf untypedCampaign) ≠ JSVal.bool true
    ∧ isFormValid (vmOf untypedCampaign) ≠ JSVal.bool false := by
  decide

end CampaignDialog
